import Mathlib

/-!
Shallow embedding of `src/met4450.py` (GOES file discovery helpers).

The repository has two functions:
* `_goes_file_df` : list objects of an S3 bucket for an hourly-partitioned
  time range, parse each filename into a tabular record, filter by band and
  by the requested time window.
* `find_goes_dataset` : normalize the satellite alias, build a padded
  one-hour window, delegate to `_goes_file_df`, filter mesoscale
  sub-domains, and select the rows whose start time is nearest the target.

The external object-listing service (`s3fs`) is modelled by passing the
concatenated listing (a `List String` of object keys) as an argument.
Timestamps are modelled as microseconds on a proleptic Gregorian timeline
(`Int`); pandas `Timestamp`s are a 64-bit linear timeline, so any
order-and-difference preserving encoding is faithful.  All string
processing is implemented by structural recursion on `List Char` so that
closed evaluations reduce in the kernel.
-/

set_option maxRecDepth 10000

deriving instance DecidableEq for Except

namespace Met4450

/-! ## Calendar / timestamp model

pandas parses `s%Y%j%H%M%S%f` (year, Julian day-of-year, hour, minute,
second, fraction) into an absolute timestamp.  We map those fields to
microseconds since 0001-01-01 of year 0 on the proleptic Gregorian
calendar; the count of leap years below `y` (year 0 counted as leap,
matching the Gregorian rule) gives the day offset of a year. -/

def isLeap (y : Nat) : Bool :=
  (y % 4 == 0 && y % 100 != 0) || y % 400 == 0

def daysInYear (y : Nat) : Nat := if isLeap y then 366 else 365

/-- Number of days in the years `0, 1, ..., y-1` (closed form counting
multiples of 4, 100 and 400 below `y`). -/
def daysBeforeYear (y : Nat) : Nat :=
  365 * y + (y + 3) / 4 - (y + 99) / 100 + (y + 399) / 400

/-- Microseconds on the model timeline for a `%Y%j%H%M%S%f` field tuple. -/
def toMicros (y j hh mi ss micro : Nat) : Nat :=
  ((((daysBeforeYear y + (j - 1)) * 24 + hh) * 60 + mi) * 60 + ss) * 1000000 + micro

/-! ## Character-list string utilities (structural recursion) -/

/-- Split a character list at every occurrence of `sep`; mirrors
`str.split(sep)` in Python (an empty input gives one empty field). -/
def splitOnChar (sep : Char) : List Char → List (List Char)
  | [] => [[]]
  | c :: cs =>
    let r := splitOnChar sep cs
    if c = sep then [] :: r
    else
      match r with
      | h :: t => (c :: h) :: t
      | [] => [[c]]

/-- Join character lists with a separator (inverse of `splitOnChar` on its
image); used to rebuild the part left of the last separator in `rsplit`. -/
def joinSep (sep : Char) : List (List Char) → List Char
  | [] => []
  | [x] => x
  | x :: y :: t => x ++ sep :: joinSep sep (y :: t)

def listIsPrefixOf : List Char → List Char → Bool
  | [], _ => true
  | _ :: _, [] => false
  | p :: ps, c :: cs => p = c && listIsPrefixOf ps cs

/-- Substring containment, modelling `pandas.Series.str.contains` for the
literal patterns this code builds (no regex metacharacters occur). -/
def containsSub (pat : List Char) : List Char → Bool
  | [] => pat.isEmpty
  | c :: t => listIsPrefixOf pat (c :: t) || containsSub pat t

def natOfDigits (cs : List Char) : Nat :=
  cs.foldl (fun a c => a * 10 + (c.toNat - 48)) 0

/-- Model of `int(str)` on a nonempty all-digit string; `None` on anything
else (mirroring `astype(int)` raising). -/
def parseNatDigits (cs : List Char) : Option Nat :=
  if cs ≠ [] ∧ cs.all (fun c => c.isDigit) then some (natOfDigits cs) else none

/-- Model of `str.rsplit("_", n=5)` keeping only columns 1..5 (the code
drops column 0 with `.loc[:, 1:]`); `none` when the filename does not
produce the six expected columns. -/
def rsplitLast5 (cs : List Char) :
    Option (List Char × List Char × List Char × List Char × List Char) :=
  let ps := splitOnChar '_' cs
  if ps.length ≥ 6 then
    match ps.drop (ps.length - 5) with
    | [a, b, c, d, e] => some (a, b, c, d, e)
    | _ => none
  else none

/-- Model of `str.rsplit("-", n=1)` into exactly two parts; `none` when the
separator does not occur (pandas then yields a null column and the later
`astype(int)` raises). -/
def rsplitLast1 (sep : Char) (cs : List Char) : Option (List Char × List Char) :=
  let ps := splitOnChar sep cs
  match ps.getLast? with
  | some last => if ps.length ≥ 2 then some (joinSep sep ps.dropLast, last) else none
  | none => none

/-! ## Filename timestamp parsing

Format `s/e/cYYYYJJJHHMMSSf` with 1..6 fraction digits interpreted as a
decimal fraction of a second (`%f`).  pandas restricts `Timestamp` to the
ns-epoch range (years ~1677..2262); we accept the full years 1678..2261,
and reject out-of-range fields the way `pd.to_datetime(..., format=...)`
raises on them. -/

def parseStampCore (cs : List Char) : Option Nat :=
  if cs.length < 14 ∨ cs.length > 19 ∨ ¬ (cs.all (fun c => c.isDigit) = true) then none
  else
    let y := natOfDigits (cs.take 4)
    let j := natOfDigits ((cs.drop 4).take 3)
    let hh := natOfDigits ((cs.drop 7).take 2)
    let mi := natOfDigits ((cs.drop 9).take 2)
    let ss := natOfDigits ((cs.drop 11).take 2)
    let frac := cs.drop 13
    let micro := natOfDigits frac * 10 ^ (6 - frac.length)
    if 1678 ≤ y ∧ y ≤ 2261 ∧ 1 ≤ j ∧ j ≤ daysInYear y ∧ hh ≤ 23 ∧ mi ≤ 59 ∧ ss ≤ 59
    then some (toMicros y j hh mi ss micro)
    else none

/-- `pd.to_datetime(x, format="s%Y%j%H%M%S%f")`. -/
def parseS (s : String) : Option Int :=
  match s.toList with
  | 's' :: rest => (parseStampCore rest).map (fun n => (n : Int))
  | _ => none

/-- `pd.to_datetime(x, format="e%Y%j%H%M%S%f")`. -/
def parseE (s : String) : Option Int :=
  match s.toList with
  | 'e' :: rest => (parseStampCore rest).map (fun n => (n : Int))
  | _ => none

/-- `pd.to_datetime(x, format="c%Y%j%H%M%S%f.nc")`. -/
def parseC (s : String) : Option Int :=
  match s.toList.reverse with
  | 'c' :: 'n' :: '.' :: revRest =>
    match revRest.reverse with
    | 'c' :: rest => (parseStampCore rest).map (fun n => (n : Int))
    | _ => none
  | _ => none

/-! ## Data model

`PreRecord` is a row of the DataFrame after the filename has been split
into columns but before the timestamp columns are converted (lines 52-75);
`FileRecord` is a row after `pd.to_datetime` has replaced the string
columns (lines 80-85).  `product`, `mode` and `band` are only populated in
the `ABI` branch, `domain` only by `find_goes_dataset`. -/

structure PreRecord where
  file : String
  product_mode : String
  satellite : String
  startStr : String
  endStr : String
  creationStr : String
  product : Option String := none
  mode : Option Nat := none
  band : Option Nat := none
  deriving DecidableEq

structure FileRecord where
  file : String
  product_mode : String
  satellite : String
  start : Int
  end_ : Int
  creation : Int
  product : Option String := none
  mode : Option Nat := none
  band : Option Nat := none
  domain : Option String := none
  deriving DecidableEq

/-- The `bands` argument of both functions: omitted, a scalar channel
number, or a list of channel numbers. -/
inductive BandsArg where
  | nothing : BandsArg
  | scalar (b : Nat) : BandsArg
  | list (l : List Nat) : BandsArg
  deriving DecidableEq

/-- Lines 72-74: a scalar `bands` argument (no `__len__`) is wrapped into a
one-element list before filtering. -/
def normBands : BandsArg → Option (List Nat)
  | .nothing => none
  | .scalar b => some [b]
  | .list l => some l

/-! ## Error messages (stand-ins for the Python exceptions) -/

def noFilesMsg : String := "No files found"
def splitMsg : String := "filename does not split into the expected columns"
def modeMsg : String := "could not parse scan mode"
def timeMsg : String := "could not parse filename timestamps"
def indexErrMsg : String := "IndexError: index -1 is out of bounds for axis 0 with size 0"
def satErrMsg (s : String) : String := "Satellite name not recognized: " ++ s

/-! ## Listing-and-parsing pipeline (`_goes_file_df`) -/

/-- Per-element `Except` traversal; pandas column operations raise on the
first bad element, which `Except` error propagation models. -/
def mapExcept (g : α → Except String β) : List α → Except String (List β)
  | [] => .ok []
  | a :: as =>
    match g a, mapExcept g as with
    | .ok b, .ok bs => .ok (b :: bs)
    | .error e, _ => .error e
    | .ok _, .error e => .error e

/-- Lines 52-55: split one object key on the last five underscores into the
columns `product_mode, satellite, start, end, creation`. -/
def splitFile (f : String) : Except String PreRecord :=
  match rsplitLast5 f.toList with
  | some (pm, sat, s, e, c) =>
    .ok { file := f, product_mode := ⟨pm⟩, satellite := ⟨sat⟩,
          startStr := ⟨s⟩, endStr := ⟨e⟩, creationStr := ⟨c⟩ }
  | none => .error splitMsg

/-- Lines 59-69 for one row: split `product_mode` at its last dash into the
product and the `mode_bands` field, split that on `C`, parse the scan mode
(`str[1:]` of part 0, must be an integer or the whole call raises) and
tentatively parse the channel number from part 1. -/
def abiParseRow (r : PreRecord) : Except String PreRecord :=
  match rsplitLast1 '-' r.product_mode.toList with
  | none => .error modeMsg
  | some (p0, mb) =>
    match parseNatDigits (((splitOnChar 'C' mb).headD []).drop 1) with
    | none => .error modeMsg
    | some m =>
      .ok { r with product := some (⟨p0⟩ : String), mode := some m,
                   band := (splitOnChar 'C' mb)[1]? |>.bind parseNatDigits }

/-- Lines 63-69: the `band` column is produced by a single column-wise
`astype(int)` inside `try/except`; if any row lacks a numeric channel part
the conversion raises and every row gets `band = None`. -/
def abiParseAll (rs : List PreRecord) : Except String (List PreRecord) :=
  match mapExcept abiParseRow rs with
  | .error e => .error e
  | .ok rs' =>
    if rs'.all (fun r => r.band.isSome) then .ok rs'
    else .ok (rs'.map (fun r => { r with band := none }))

/-- Line 75: `df.loc[df.band.isin(bands)]`; a null band is never in the
requested set. -/
def bandFilter (ob : Option (List Nat)) (rs : List PreRecord) : List PreRecord :=
  match ob with
  | none => rs
  | some l =>
    rs.filter (fun r =>
      match r.band with
      | some b => l.contains b
      | none => false)

/-- Lines 58-75: the channel-product branch, entered only when the product
name starts with `ABI`. -/
def abiBranch (product : String) (bands : BandsArg) (rs : List PreRecord) :
    Except String (List PreRecord) :=
  if listIsPrefixOf "ABI".toList product.toList then
    match abiParseAll rs with
    | .error e => .error e
    | .ok rs' => .ok (bandFilter (normBands bands) rs')
  else .ok rs

/-- Lines 80-82 for one row: convert the three timestamp columns. -/
def parseTimesRow (r : PreRecord) : Except String FileRecord :=
  match parseS r.startStr, parseE r.endStr, parseC r.creationStr with
  | some s, some e, some c =>
    .ok { file := r.file, product_mode := r.product_mode, satellite := r.satellite,
          start := s, end_ := e, creation := c,
          product := r.product, mode := r.mode, band := r.band }
  | _, _, _ => .error timeMsg

/-- Line 85: `df.loc[df.start >= start].loc[df.end <= end]`. -/
def windowFilter (startT endT : Int) (rs : List FileRecord) : List FileRecord :=
  (rs.filter (fun r => startT ≤ r.start)).filter (fun r => r.end_ ≤ endT)

/-- Lines 52-82 of `_goes_file_df`: everything between the empty-listing
check and the time-window filter. -/
def goesParsed (product : String) (bands : BandsArg) (files : List String) :
    Except String (List FileRecord) :=
  match mapExcept splitFile files with
  | .error e => .error e
  | .ok rs =>
    match abiBranch product bands rs with
    | .error e => .error e
    | .ok rs' => mapExcept parseTimesRow rs'

/-- Lines 11-90.  The external listing service is modelled by `files`, the
concatenation of the per-hour `fs.ls` results; the `satellite` (bucket) and
`refresh` parameters only shape that listing and are absorbed by it.  The
`ValueError` of lines 46-48 fires exactly when the listing is empty. -/
def _goes_file_df (product : String) (startT endT : Int) (bands : BandsArg)
    (files : List String) : Except String (List FileRecord) :=
  if files.isEmpty then .error noFilesMsg
  else
    match goesParsed product bands files with
    | .error e => .error e
    | .ok frs => .ok (windowFilter startT endT frs)

/-! ## Top-level matcher (`find_goes_dataset`) -/

/-- The uppercased character form of an alias (`str(satellite).upper()`). -/
def upperChars (s : String) : List Char := s.toList.map Char.toUpper

/-- Lines 129-136: normalize the satellite alias (uppercased string form)
to the canonical numeric id; `none` models the `ValueError`. -/
def satNumber (satellite : String) : Option String :=
  if upperChars satellite = "16".toList ∨ upperChars satellite = "G16".toList ∨
     upperChars satellite = "GOES16".toList ∨ upperChars satellite = "GOES-16".toList ∨
     upperChars satellite = "GOES-EAST".toList ∨ upperChars satellite = "EAST".toList
  then some "16"
  else if upperChars satellite = "17".toList ∨ upperChars satellite = "G17".toList ∨
     upperChars satellite = "GOES17".toList ∨ upperChars satellite = "GOES-17".toList
  then some "17"
  else if upperChars satellite = "18".toList ∨ upperChars satellite = "G18".toList ∨
     upperChars satellite = "GOES18".toList ∨ upperChars satellite = "GOES-18".toList ∨
     upperChars satellite = "GOES-WEST".toList ∨ upperChars satellite = "WEST".toList
  then some "18"
  else none

/-- Lines 129-138: the resolved numeric id together with the derived bucket
name `noaa-goes<id>`. -/
def satBucket (satellite : String) : Option (String × String) :=
  (satNumber satellite).map (fun n => (n, "noaa-goes" ++ n))

/-- The default of the `datetime` parameter, `pd.Timestamp.now()`, is
evaluated once when the module is imported (Python evaluates default
arguments at function definition time), so an omitted argument resolves to
the import-time clock, not the clock at the moment of the call. -/
def defaultTargetTime (importNow : Int) : Int := importNow

/-- Line 142 together with the default of line 96: the effective target
timestamp of a call.  `callNow` is the wall clock at the moment of the
call; the code never consults it. -/
def effectiveTarget (importNow : Int) (_callNow : Int) (arg : Option Int) : Int :=
  arg.getD (defaultTargetTime importNow)

/-- Lines 144-147: mesoscale domains share the product suffix `M`. -/
def productDomain (product domain : String) : String :=
  if domain = "M1" ∨ domain = "M2" then product ++ "M" else product ++ domain

/-- Lines 158-163: mesoscale sub-domain disambiguation by substring match
on `product_mode`, then the `product` and `domain` columns are (re)set for
every row. -/
def candidateRows (product domain : String) (df0 : List FileRecord) :
    List FileRecord :=
  let df1 :=
    if domain = "M1" ∨ domain = "M2" then
      df0.filter (fun r => containsSub (product ++ domain).toList r.product_mode.toList)
    else df0
  df1.map (fun r => { r with product := some product, domain := some domain })

/-- The greatest start time that is `≤ target` — what
`get_indexer(..., method="pad")` finds on the sorted unique index. -/
def padTime (target : Int) : List Int → Option Int
  | [] => none
  | t :: ts =>
    if t ≤ target then
      match padTime target ts with
      | none => some t
      | some m => some (max t m)
    else padTime target ts

/-- The least start time that is `≥ target` — what
`get_indexer(..., method="backfill")` finds on the sorted unique index. -/
def backfillTime (target : Int) : List Int → Option Int
  | [] => none
  | t :: ts =>
    if target ≤ t then
      match backfillTime target ts with
      | none => some t
      | some m => some (min t m)
    else backfillTime target ts

/-- Lines 166-170: `sort_values`, `set_index`, `unique`, then
`get_indexer([datetime], method="nearest")` on the sorted unique start-time
index.  pandas compares the pad and backfill candidates with strict `<` on
a monotonic index, so an exact tie resolves to the later time; an empty
index makes the lookup raise `IndexError`, modelled by `none`. -/
def nearestStartTime (rs : List FileRecord) (target : Int) : Option Int :=
  match padTime target (rs.map (fun r => r.start)),
        backfillTime target (rs.map (fun r => r.start)) with
  | none, none => none
  | some l, none => some l
  | none, some r => some r
  | some l, some r =>
    some (if (l - target).natAbs < (r - target).natAbs then l else r)

/-- Line 171: `df.loc[nearest_time]` keeps every row whose start time
equals the selected nearest time. -/
def selectNearest (rs : List FileRecord) (target : Int) :
    Option (List FileRecord) :=
  (nearestStartTime rs target).map (fun c => rs.filter (fun r => r.start = c))

/-- Lines 92-183.  Arguments: the alias in its string form (`str(satellite)`),
the product, domain, band request, the optional `datetime` argument, the
module-import clock, the call-time clock (unused by the code) and the
modelled object listing.  The returned value is `Except` for the raised
exceptions, and the `ok` payload is `none` for the printed
`No data` / `return None` branch of lines 175-178. -/
def find_goes_dataset (satellite product domain : String) (bands : BandsArg)
    (datetimeArg : Option Int) (importNow callNow : Int) (files : List String) :
    Except String (Option (List FileRecord)) :=
  match satNumber satellite with
  | none => .error (satErrMsg satellite)
  | some _number =>
    let datetime := effectiveTarget importNow callNow datetimeArg
    match _goes_file_df (productDomain product domain)
        (datetime - 3600000000) (datetime + 3600000000) bands files with
    | .error e => .error e
    | .ok df0 =>
      let df2 := candidateRows product domain df0
      match selectNearest df2 datetime with
      | none => .error indexErrMsg
      | some df3 => if df3.length = 0 then .ok none else .ok (some df3)

/-- Wellformedness of one listed object key: whenever the key splits into
the six columns and its `s`/`e` fields parse, the encoded start is at most
the encoded end.  Real GOES object keys satisfy this; the code never
checks it. -/
def stampsOrderedB (f : String) : Bool :=
  match rsplitLast5 f.toList with
  | some (_, _, s, e, _) =>
    match parseS ⟨s⟩, parseE ⟨e⟩ with
    | some sv, some ev => decide (sv ≤ ev)
    | _, _ => true
  | none => true

/-- The sixteen alias spellings (uppercased) accepted by lines 129-134. -/
def recognizedAliases : List (List Char) :=
  ["16".toList, "G16".toList, "GOES16".toList, "GOES-16".toList,
   "GOES-EAST".toList, "EAST".toList,
   "17".toList, "G17".toList, "GOES17".toList, "GOES-17".toList,
   "18".toList, "G18".toList, "GOES18".toList, "GOES-18".toList,
   "GOES-WEST".toList, "WEST".toList]

/-! ## Lemmas about the traversal combinator -/

theorem mapExcept_ok_mem {g : α → Except String β} :
    ∀ {l : List α} {bs : List β}, mapExcept g l = .ok bs →
      ∀ b ∈ bs, ∃ a ∈ l, g a = .ok b := by
  intro l
  induction l with
  | nil =>
    intro bs h b hb
    simp only [mapExcept] at h
    cases h
    simp at hb
  | cons a as ih =>
    intro bs h b hb
    simp only [mapExcept] at h
    cases hga : g a with
    | error e => rw [hga] at h; cases h
    | ok b0 =>
      rw [hga] at h
      cases hrest : mapExcept g as with
      | error e => rw [hrest] at h; cases h
      | ok bs0 =>
        rw [hrest] at h
        cases h
        rcases List.mem_cons.mp hb with hb | hb
        · exact ⟨a, List.mem_cons_self a as, hb ▸ hga⟩
        · obtain ⟨a', ha', hg'⟩ := ih hrest b hb
          exact ⟨a', List.mem_cons_of_mem a ha', hg'⟩

theorem mapExcept_error_exists {g : α → Except String β} :
    ∀ {l : List α} {m : String}, mapExcept g l = .error m →
      ∃ a ∈ l, g a = .error m := by
  intro l
  induction l with
  | nil => intro m h; simp only [mapExcept] at h; cases h
  | cons a as ih =>
    intro m h
    simp only [mapExcept] at h
    cases hga : g a with
    | error e =>
      rw [hga] at h
      cases hrest : mapExcept g as with
      | error e' => rw [hrest] at h; cases h; exact ⟨a, List.mem_cons_self a as, hga⟩
      | ok bs0 => rw [hrest] at h; cases h; exact ⟨a, List.mem_cons_self a as, hga⟩
    | ok b0 =>
      rw [hga] at h
      cases hrest : mapExcept g as with
      | error e' =>
        rw [hrest] at h
        cases h
        obtain ⟨a', ha', hg'⟩ := ih hrest
        exact ⟨a', List.mem_cons_of_mem a ha', hg'⟩
      | ok bs0 => rw [hrest] at h; cases h

/-! ## Which message each stage can raise -/

theorem splitFile_error {f : String} {m : String}
    (h : splitFile f = .error m) : m = splitMsg := by
  unfold splitFile at h
  split at h
  · cases h
  · cases h; rfl

theorem abiParseRow_error {r : PreRecord} {m : String}
    (h : abiParseRow r = .error m) : m = modeMsg := by
  unfold abiParseRow at h
  split at h
  · cases h; rfl
  · split at h
    · cases h; rfl
    · cases h

theorem abiParseAll_error {rs : List PreRecord} {m : String}
    (h : abiParseAll rs = .error m) : m = modeMsg := by
  unfold abiParseAll at h
  split at h
  next e heq =>
    cases h
    obtain ⟨a, -, ha⟩ := mapExcept_error_exists heq
    exact abiParseRow_error ha
  next rs' heq =>
    split at h <;> cases h

theorem abiBranch_error {p : String} {bands : BandsArg} {rs : List PreRecord}
    {m : String} (h : abiBranch p bands rs = .error m) : m = modeMsg := by
  unfold abiBranch at h
  split at h
  · split at h
    next e heq => cases h; exact abiParseAll_error heq
    next rs' heq => cases h
  · cases h

theorem parseTimesRow_error {r : PreRecord} {m : String}
    (h : parseTimesRow r = .error m) : m = timeMsg := by
  unfold parseTimesRow at h
  split at h
  · cases h
  · cases h; rfl

theorem goesParsed_error {p : String} {bands : BandsArg} {files : List String}
    {m : String} (h : goesParsed p bands files = .error m) :
    m = splitMsg ∨ m = modeMsg ∨ m = timeMsg := by
  unfold goesParsed at h
  split at h
  next e heq =>
    cases h
    obtain ⟨a, -, ha⟩ := mapExcept_error_exists heq
    exact Or.inl (splitFile_error ha)
  next rs heq =>
    split at h
    next e heq2 => cases h; exact Or.inr (Or.inl (abiBranch_error heq2))
    next rs' heq2 =>
      obtain ⟨a, -, ha⟩ := mapExcept_error_exists h
      exact Or.inr (Or.inr (parseTimesRow_error ha))

/-- C1 (amended): `_goes_file_df` raises its empty-result `ValueError`
exactly when the object listing itself is empty — before any band or
time-window filtering.  A nonempty listing never produces this error, even
when zero listed objects satisfy the requested window. -/
theorem c1_no_files_error_iff_empty_listing (product : String)
    (startT endT : Int) (bands : BandsArg) (files : List String) :
    _goes_file_df product startT endT bands files = .error noFilesMsg ↔
      files = [] := by
  constructor
  · intro h
    unfold _goes_file_df at h
    by_cases hf : files.isEmpty
    · exact List.isEmpty_iff.mp hf
    · exfalso
      rw [if_neg hf] at h
      split at h
      next e heq =>
        cases h
        rcases goesParsed_error heq with h' | h' | h' <;> revert h' <;> decide
      next frs heq => cases h
  · intro h
    subst h
    rfl

/-- C1 counterexample: a single listed object whose timestamps fall outside
the requested window.  Zero objects satisfy the window, yet the function
returns an empty table (`ok []`) instead of raising the empty-result
error — refuting the claim that the error fires exactly when zero objects
satisfy the window. -/
theorem c1_counterexample :
    _goes_file_df "ABI-L2-MCMIPC"
      ((toMicros 2024 2 0 0 0 0 : Nat) : Int) ((toMicros 2024 3 0 0 0 0 : Nat) : Int)
      BandsArg.nothing
      ["noaa-goes16/OR_ABI-L2-MCMIPC-M6_G16_s20240010000000_e20240010000100_c20240010000200.nc"]
      = .ok [] := by
  decide

/-! ## The time-window filter -/

theorem windowFilter_mem (startT endT : Int) (rs : List FileRecord)
    (r : FileRecord) :
    r ∈ windowFilter startT endT rs ↔
      r ∈ rs ∧ startT ≤ r.start ∧ r.end_ ≤ endT := by
  simp only [windowFilter, List.mem_filter, decide_eq_true_eq]
  tauto

/-- C3: inside `_goes_file_df`, a parsed record survives the time-window
filter iff its start timestamp is at least the requested start bound and
its end timestamp is at most the requested end bound; boundary timestamps
are retained, anything outside the window is dropped. -/
theorem c3_window_filter_iff (product : String) (startT endT : Int)
    (bands : BandsArg) (files : List String) (parsed out : List FileRecord)
    (h1 : goesParsed product bands files = .ok parsed)
    (h2 : _goes_file_df product startT endT bands files = .ok out)
    (r : FileRecord) :
    r ∈ out ↔ r ∈ parsed ∧ startT ≤ r.start ∧ r.end_ ≤ endT := by
  unfold _goes_file_df at h2
  by_cases hf : files.isEmpty
  · rw [if_pos hf] at h2; cases h2
  · rw [if_neg hf, h1] at h2
    cases h2
    exact windowFilter_mem startT endT parsed r

/-- C10: a scalar `bands` argument is wrapped into a one-element list
before filtering, so a scalar `b` and the list `[b]` give identical
results, both for `_goes_file_df` and for `find_goes_dataset`. -/
theorem c10_scalar_band_eq_singleton (b : Nat) :
    (∀ (product : String) (startT endT : Int) (files : List String),
      _goes_file_df product startT endT (BandsArg.scalar b) files =
        _goes_file_df product startT endT (BandsArg.list [b]) files) ∧
    (∀ (satellite product domain : String) (datetimeArg : Option Int)
        (importNow callNow : Int) (files : List String),
      find_goes_dataset satellite product domain (BandsArg.scalar b)
          datetimeArg importNow callNow files =
        find_goes_dataset satellite product domain (BandsArg.list [b])
          datetimeArg importNow callNow files) := by
  have hnorm : normBands (BandsArg.scalar b) = normBands (BandsArg.list [b]) := rfl
  have habi : ∀ (p : String) (rs : List PreRecord),
      abiBranch p (BandsArg.scalar b) rs = abiBranch p (BandsArg.list [b]) rs := by
    intro p rs
    unfold abiBranch
    rw [hnorm]
  have hparsed : ∀ (p : String) (files : List String),
      goesParsed p (BandsArg.scalar b) files = goesParsed p (BandsArg.list [b]) files := by
    intro p files
    unfold goesParsed
    simp only [habi]
  have hdf : ∀ (p : String) (s e : Int) (files : List String),
      _goes_file_df p s e (BandsArg.scalar b) files =
        _goes_file_df p s e (BandsArg.list [b]) files := by
    intro p s e files
    unfold _goes_file_df
    rw [hparsed]
  refine ⟨hdf, ?_⟩
  intro sat p d dt imp callN files
  unfold find_goes_dataset
  simp only [hdf]

/-! ## The band filter (channel products) -/

theorem bandFilter_mem (l : List Nat) (rs : List PreRecord) (r : PreRecord) :
    r ∈ bandFilter (some l) rs ↔
      r ∈ rs ∧ ∃ b, r.band = some b ∧ l.contains b = true := by
  simp only [bandFilter, List.mem_filter]
  constructor
  · rintro ⟨hmem, hcond⟩
    refine ⟨hmem, ?_⟩
    cases hb : r.band with
    | none => rw [hb] at hcond; cases hcond
    | some b => rw [hb] at hcond; exact ⟨b, rfl, hcond⟩
  · rintro ⟨hmem, b, hb, hl⟩
    exact ⟨hmem, by rw [hb]; exact hl⟩

/-- C9: for a channel-based product (name starting with `ABI`) and a
supplied band list, `_goes_file_df` keeps exactly the parsed records whose
band number lies in the requested set; records with any other band, or
with no band, are discarded. -/
theorem c9_band_filter_iff (product : String) (l : List Nat)
    (rs parsed out : List PreRecord)
    (habi : listIsPrefixOf "ABI".toList product.toList = true)
    (hparse : abiParseAll rs = .ok parsed)
    (hout : abiBranch product (BandsArg.list l) rs = .ok out)
    (r : PreRecord) :
    r ∈ out ↔ r ∈ parsed ∧ ∃ b, r.band = some b ∧ l.contains b = true := by
  unfold abiBranch at hout
  rw [if_pos habi, hparse] at hout
  cases hout
  exact bandFilter_mem l parsed r

/-! ## Provenance of produced records (for the record invariants) -/

theorem splitFile_fields {f : String} {pr : PreRecord}
    (h : splitFile f = .ok pr) :
    (∃ pm sat s e c, rsplitLast5 f.toList = some (pm, sat, s, e, c) ∧
      pr.startStr = (⟨s⟩ : String) ∧ pr.endStr = (⟨e⟩ : String)) ∧
    pr.band = none := by
  unfold splitFile at h
  split at h
  next pm sat s e c heq =>
    cases h
    exact ⟨⟨pm, sat, s, e, c, heq, rfl, rfl⟩, rfl⟩
  next heq => cases h

theorem abiParseRow_pres {pr pr' : PreRecord}
    (h : abiParseRow pr = .ok pr') :
    pr'.startStr = pr.startStr ∧ pr'.endStr = pr.endStr := by
  unfold abiParseRow at h
  split at h
  · cases h
  · split at h
    · cases h
    · cases h; exact ⟨rfl, rfl⟩

theorem abiParseAll_pres {rs rs' : List PreRecord}
    (h : abiParseAll rs = .ok rs') :
    ∀ pr' ∈ rs', ∃ pr ∈ rs, pr'.startStr = pr.startStr ∧ pr'.endStr = pr.endStr := by
  unfold abiParseAll at h
  split at h
  next e heq => cases h
  next rs0 heq =>
    intro pr' hmem'
    split at h
    · cases h
      obtain ⟨pr, hpr, hrow⟩ := mapExcept_ok_mem heq pr' hmem'
      exact ⟨pr, hpr, abiParseRow_pres hrow⟩
    · cases h
      obtain ⟨pr0, hpr0, hmap⟩ := List.mem_map.mp hmem'
      obtain ⟨pr, hpr, hrow⟩ := mapExcept_ok_mem heq pr0 hpr0
      obtain ⟨h1, h2⟩ := abiParseRow_pres hrow
      exact ⟨pr, hpr, by rw [← hmap]; exact ⟨h1, h2⟩⟩

theorem bandFilter_subset {ob : Option (List Nat)} {rs : List PreRecord}
    {r : PreRecord} (h : r ∈ bandFilter ob rs) : r ∈ rs := by
  unfold bandFilter at h
  cases ob with
  | none => exact h
  | some l => exact (List.mem_filter.mp h).1

theorem abiBranch_pres {p : String} {bands : BandsArg} {rs rs' : List PreRecord}
    (h : abiBranch p bands rs = .ok rs') :
    ∀ pr' ∈ rs', ∃ pr ∈ rs, pr'.startStr = pr.startStr ∧ pr'.endStr = pr.endStr := by
  unfold abiBranch at h
  split at h
  · split at h
    next e heq => cases h
    next rs0 heq =>
      cases h
      intro pr' hmem'
      exact abiParseAll_pres heq pr' (bandFilter_subset hmem')
  · cases h
    intro pr' hmem'
    exact ⟨pr', hmem', rfl, rfl⟩

theorem abiBranch_not_abi {p : String} {bands : BandsArg} {rs : List PreRecord}
    (h : listIsPrefixOf "ABI".toList p.toList = false) :
    abiBranch p bands rs = .ok rs := by
  unfold abiBranch
  rw [if_neg]
  rw [h]
  exact Bool.false_ne_true

theorem parseTimesRow_fields {pr : PreRecord} {r : FileRecord}
    (h : parseTimesRow pr = .ok r) :
    parseS pr.startStr = some r.start ∧ parseE pr.endStr = some r.end_ ∧
      r.band = pr.band := by
  unfold parseTimesRow at h
  split at h
  next sv ev cv hs he hc =>
    cases h
    exact ⟨hs, he, rfl⟩
  next => cases h

theorem windowFilter_subset {startT endT : Int} {rs : List FileRecord}
    {r : FileRecord} (h : r ∈ windowFilter startT endT rs) : r ∈ rs :=
  ((windowFilter_mem startT endT rs r).mp h).1

theorem stampsOrderedB_spec {f : String} {pm sat s e c : List Char}
    {sv ev : Int}
    (hw : stampsOrderedB f = true)
    (hsplit : rsplitLast5 f.toList = some (pm, sat, s, e, c))
    (hs : parseS ⟨s⟩ = some sv) (he : parseE ⟨e⟩ = some ev) : sv ≤ ev := by
  unfold stampsOrderedB at hw
  rw [hsplit] at hw
  simp only [hs, he, decide_eq_true_eq] at hw
  exact hw

/-- C8 (amended): parsing preserves, but does not enforce, the `start ≤ end`
invariant — every record produced from a listing whose object keys encode
`start ≤ end` satisfies `start ≤ end` — and a band number is populated only
in the channel-product (`ABI`) branch; records of non-`ABI` products never
carry a band. -/
theorem c8_record_invariants (product : String) (startT endT : Int)
    (bands : BandsArg) (files : List String) (out : List FileRecord)
    (hfiles : ∀ f ∈ files, stampsOrderedB f = true)
    (hout : _goes_file_df product startT endT bands files = .ok out) :
    ∀ r ∈ out, r.start ≤ r.end_ ∧
      (r.band.isSome = true → listIsPrefixOf "ABI".toList product.toList = true) := by
  intro r hr
  unfold _goes_file_df at hout
  by_cases hf : files.isEmpty
  · rw [if_pos hf] at hout; cases hout
  · rw [if_neg hf] at hout
    split at hout
    next e heq => cases hout
    next frs heq =>
      cases hout
      have hrf : r ∈ frs := windowFilter_subset hr
      unfold goesParsed at heq
      split at heq
      next e heq1 => cases heq
      next rs heq1 =>
        split at heq
        next e heq2 => cases heq
        next rs' heq2 =>
          obtain ⟨pr', hpr', hrow⟩ := mapExcept_ok_mem heq r hrf
          obtain ⟨hps, hpe, hband⟩ := parseTimesRow_fields hrow
          constructor
          · obtain ⟨pr, hpr, hs1, hs2⟩ := abiBranch_pres heq2 pr' hpr'
            obtain ⟨f, hfmem, hsplit⟩ := mapExcept_ok_mem heq1 pr hpr
            obtain ⟨⟨pm, sat, s, e, c, hr5, hss, hes⟩, hbnone⟩ := splitFile_fields hsplit
            have hfs : parseS ⟨s⟩ = some r.start := by
              rw [← hss, ← hs1]; exact hps
            have hfe : parseE ⟨e⟩ = some r.end_ := by
              rw [← hes, ← hs2]; exact hpe
            exact stampsOrderedB_spec (hfiles f hfmem) hr5 hfs hfe
          · intro hbs
            by_cases habi : listIsPrefixOf "ABI".toList product.toList = true
            · exact habi
            · exfalso
              have hfalse : listIsPrefixOf "ABI".toList product.toList = false := by
                revert habi
                cases listIsPrefixOf "ABI".toList product.toList <;> simp
              have hbr := @abiBranch_not_abi product bands rs hfalse
              rw [hbr] at heq2
              cases heq2
              obtain ⟨f, hfmem, hsplit⟩ := mapExcept_ok_mem heq1 pr' hpr'
              have hb0 := (splitFile_fields hsplit).2
              rw [hband, hb0] at hbs
              cases hbs

/-- C8 counterexample: the code accepts an object key whose encoded start
is later than its encoded end, producing a record with `start > end` — the
claimed invariant is not enforced by `_goes_file_df`. -/
theorem c8_counterexample :
    Except.map (fun rs => rs.map (fun r => decide (r.start ≤ r.end_)))
      (_goes_file_df "XYZ" 0 ((toMicros 2100 1 0 0 0 0 : Nat) : Int)
        BandsArg.nothing
        ["a_b_G16_s20240010000100_e20240010000000_c20240010000000.nc"])
      = .ok [false] := by
  decide

/-- C8 witness: the amended invariant theorem applied to a concrete
well-ordered listing. -/
theorem c8_witness :
    (∀ f ∈ ["a_b_G16_s20240010000000_e20240010000100_c20240010000200.nc"],
      stampsOrderedB f = true) ∧
    ((⟨"a_b_G16_s20240010000000_e20240010000100_c20240010000200.nc", "b", "G16",
        ((toMicros 2024 1 0 0 0 0 : Nat) : Int), ((toMicros 2024 1 0 0 10 0 : Nat) : Int),
        ((toMicros 2024 1 0 0 20 0 : Nat) : Int), none, none, none, none⟩ : FileRecord).start ≤
      (⟨"a_b_G16_s20240010000000_e20240010000100_c20240010000200.nc", "b", "G16",
        ((toMicros 2024 1 0 0 0 0 : Nat) : Int), ((toMicros 2024 1 0 0 10 0 : Nat) : Int),
        ((toMicros 2024 1 0 0 20 0 : Nat) : Int), none, none, none, none⟩ : FileRecord).end_ ∧
      ((⟨"a_b_G16_s20240010000000_e20240010000100_c20240010000200.nc", "b", "G16",
        ((toMicros 2024 1 0 0 0 0 : Nat) : Int), ((toMicros 2024 1 0 0 10 0 : Nat) : Int),
        ((toMicros 2024 1 0 0 20 0 : Nat) : Int), none, none, none, none⟩ : FileRecord).band.isSome = true →
        listIsPrefixOf "ABI".toList "XYZ".toList = true)) := by
  refine ⟨by decide, ?_⟩
  exact c8_record_invariants "XYZ" 0 ((toMicros 2100 1 0 0 0 0 : Nat) : Int)
    BandsArg.nothing
    ["a_b_G16_s20240010000000_e20240010000100_c20240010000200.nc"]
    [⟨"a_b_G16_s20240010000000_e20240010000100_c20240010000200.nc", "b", "G16",
        ((toMicros 2024 1 0 0 0 0 : Nat) : Int), ((toMicros 2024 1 0 0 10 0 : Nat) : Int),
        ((toMicros 2024 1 0 0 20 0 : Nat) : Int), none, none, none, none⟩]
    (by decide) (by decide) _ (List.mem_singleton.mpr rfl)

/-! ## The nearest-start-time lookup -/

theorem padTime_none {target : Int} :
    ∀ {ts : List Int}, padTime target ts = none → ∀ t ∈ ts, ¬ t ≤ target := by
  intro ts
  induction ts with
  | nil => intro _ t ht; cases ht
  | cons t0 ts ih =>
    intro h t ht
    unfold padTime at h
    by_cases h0 : t0 ≤ target
    · rw [if_pos h0] at h
      split at h <;> cases h
    · rw [if_neg h0] at h
      rcases List.mem_cons.mp ht with rfl | ht'
      · exact h0
      · exact ih h t ht'

theorem padTime_spec {target : Int} :
    ∀ {ts : List Int} {l : Int}, padTime target ts = some l →
      l ∈ ts ∧ l ≤ target ∧ ∀ t ∈ ts, t ≤ target → t ≤ l := by
  intro ts
  induction ts with
  | nil => intro l h; cases h
  | cons t0 ts ih =>
    intro l h
    unfold padTime at h
    by_cases h0 : t0 ≤ target
    · rw [if_pos h0] at h
      cases hr : padTime target ts with
      | none =>
        rw [hr] at h
        cases h
        refine ⟨List.mem_cons_self _ _, h0, ?_⟩
        intro t ht hle
        rcases List.mem_cons.mp ht with rfl | ht'
        · exact le_refl t
        · exact absurd hle (padTime_none hr t ht')
      | some m =>
        rw [hr] at h
        cases h
        obtain ⟨hmem, hle, hmax⟩ := ih hr
        refine ⟨?_, max_le h0 hle, ?_⟩
        · rcases max_choice t0 m with hc | hc <;> rw [hc]
          · exact List.mem_cons_self _ _
          · exact List.mem_cons_of_mem _ hmem
        · intro t ht hle'
          rcases List.mem_cons.mp ht with rfl | ht'
          · exact le_max_left _ _
          · exact le_trans (hmax t ht' hle') (le_max_right _ _)
    · rw [if_neg h0] at h
      obtain ⟨hmem, hle, hmax⟩ := ih h
      refine ⟨List.mem_cons_of_mem _ hmem, hle, ?_⟩
      intro t ht hle'
      rcases List.mem_cons.mp ht with rfl | ht'
      · exact absurd hle' h0
      · exact hmax t ht' hle'

theorem backfillTime_none {target : Int} :
    ∀ {ts : List Int}, backfillTime target ts = none → ∀ t ∈ ts, ¬ target ≤ t := by
  intro ts
  induction ts with
  | nil => intro _ t ht; cases ht
  | cons t0 ts ih =>
    intro h t ht
    unfold backfillTime at h
    by_cases h0 : target ≤ t0
    · rw [if_pos h0] at h
      split at h <;> cases h
    · rw [if_neg h0] at h
      rcases List.mem_cons.mp ht with rfl | ht'
      · exact h0
      · exact ih h t ht'

theorem backfillTime_spec {target : Int} :
    ∀ {ts : List Int} {r : Int}, backfillTime target ts = some r →
      r ∈ ts ∧ target ≤ r ∧ ∀ t ∈ ts, target ≤ t → r ≤ t := by
  intro ts
  induction ts with
  | nil => intro r h; cases h
  | cons t0 ts ih =>
    intro r h
    unfold backfillTime at h
    by_cases h0 : target ≤ t0
    · rw [if_pos h0] at h
      cases hr : backfillTime target ts with
      | none =>
        rw [hr] at h
        cases h
        refine ⟨List.mem_cons_self _ _, h0, ?_⟩
        intro t ht hle
        rcases List.mem_cons.mp ht with rfl | ht'
        · exact le_refl t
        · exact absurd hle (backfillTime_none hr t ht')
      | some m =>
        rw [hr] at h
        cases h
        obtain ⟨hmem, hle, hmin⟩ := ih hr
        refine ⟨?_, le_min h0 hle, ?_⟩
        · rcases min_choice t0 m with hc | hc <;> rw [hc]
          · exact List.mem_cons_self _ _
          · exact List.mem_cons_of_mem _ hmem
        · intro t ht hle'
          rcases List.mem_cons.mp ht with rfl | ht'
          · exact min_le_left _ _
          · exact le_trans (min_le_right _ _) (hmin t ht' hle')
    · rw [if_neg h0] at h
      obtain ⟨hmem, hle, hmin⟩ := ih h
      refine ⟨List.mem_cons_of_mem _ hmem, hle, ?_⟩
      intro t ht hle'
      rcases List.mem_cons.mp ht with rfl | ht'
      · exact absurd hle' h0
      · exact hmin t ht' hle'

theorem nearestStartTime_some {rs : List FileRecord} {target : Int}
    (h : rs ≠ []) : ∃ c, nearestStartTime rs target = some c := by
  unfold nearestStartTime
  cases hpad : padTime target (rs.map (fun r => r.start)) with
  | some l =>
    cases hback : backfillTime target (rs.map (fun r => r.start)) with
    | none => exact ⟨l, rfl⟩
    | some r0 => exact ⟨_, rfl⟩
  | none =>
    cases hback : backfillTime target (rs.map (fun r => r.start)) with
    | some r0 => exact ⟨r0, rfl⟩
    | none =>
      exfalso
      obtain ⟨x, hx⟩ := List.exists_mem_of_ne_nil rs h
      have hmem : x.start ∈ rs.map (fun r => r.start) :=
        List.mem_map_of_mem _ hx
      have h1 := padTime_none hpad _ hmem
      have h2 := backfillTime_none hback _ hmem
      omega

theorem nearestStartTime_mem_min {rs : List FileRecord} {target c : Int}
    (h : nearestStartTime rs target = some c) :
    c ∈ rs.map (fun r => r.start) ∧
      ∀ t ∈ rs.map (fun r => r.start),
        (c - target).natAbs ≤ (t - target).natAbs := by
  unfold nearestStartTime at h
  split at h
  · cases h
  next l hpad hback =>
    cases h
    obtain ⟨hmem, hle, hmax⟩ := padTime_spec hpad
    refine ⟨hmem, ?_⟩
    intro t ht
    have hnb := backfillTime_none hback t ht
    have := hmax t ht (by omega)
    omega
  next r0 hpad hback =>
    cases h
    obtain ⟨hmem, hle, hmin⟩ := backfillTime_spec hback
    refine ⟨hmem, ?_⟩
    intro t ht
    have hnp := padTime_none hpad t ht
    have := hmin t ht (by omega)
    omega
  next l r0 hpad hback =>
    cases h
    obtain ⟨hmeml, hlel, hmaxl⟩ := padTime_spec hpad
    obtain ⟨hmemr, hler, hminr⟩ := backfillTime_spec hback
    constructor
    · by_cases hc : (l - target).natAbs < (r0 - target).natAbs
      · rw [if_pos hc]; exact hmeml
      · rw [if_neg hc]; exact hmemr
    · intro t ht
      have hcl : ((if (l - target).natAbs < (r0 - target).natAbs then l else r0)
          - target).natAbs ≤ (l - target).natAbs := by
        by_cases hc : (l - target).natAbs < (r0 - target).natAbs
        · rw [if_pos hc]
        · rw [if_neg hc]; omega
      have hcr : ((if (l - target).natAbs < (r0 - target).natAbs then l else r0)
          - target).natAbs ≤ (r0 - target).natAbs := by
        by_cases hc : (l - target).natAbs < (r0 - target).natAbs
        · rw [if_pos hc]; omega
        · rw [if_neg hc]
      by_cases htt : t ≤ target
      · have := hmaxl t ht htt
        omega
      · have := hminr t ht (by omega)
        omega

/-- C4: whenever the candidate record set (mesoscale-filtered, annotated
rows) is nonempty, `find_goes_dataset` succeeds and returns exactly the
candidate rows whose start time equals the selected nearest time: every
returned row is a candidate achieving the minimum of `|start − target|`
over all candidates, and every candidate sharing a returned start time is
returned. -/
theorem c4_nearest_selection (satellite product domain : String)
    (bands : BandsArg) (datetimeArg : Option Int) (importNow callNow : Int)
    (files : List String) (num : String) (df0 cand : List FileRecord)
    (h1 : satNumber satellite = some num)
    (h2 : _goes_file_df (productDomain product domain)
        (effectiveTarget importNow callNow datetimeArg - 3600000000)
        (effectiveTarget importNow callNow datetimeArg + 3600000000)
        bands files = .ok df0)
    (h3 : candidateRows product domain df0 = cand)
    (h4 : cand ≠ []) :
    ∃ sel,
      find_goes_dataset satellite product domain bands datetimeArg
          importNow callNow files = .ok (some sel) ∧
      sel ≠ [] ∧
      (∀ r ∈ sel, r ∈ cand) ∧
      (∀ r ∈ sel, ∀ r' ∈ cand,
        (r.start - effectiveTarget importNow callNow datetimeArg).natAbs ≤
          (r'.start - effectiveTarget importNow callNow datetimeArg).natAbs) ∧
      (∀ r ∈ cand, ∀ r0 ∈ sel, r.start = r0.start → r ∈ sel) := by
  obtain ⟨c, hc⟩ :=
    @nearestStartTime_some cand (effectiveTarget importNow callNow datetimeArg) h4
  obtain ⟨hcmem, hcmin⟩ := nearestStartTime_mem_min hc
  have hsel : selectNearest cand (effectiveTarget importNow callNow datetimeArg) =
      some (cand.filter (fun r => decide (r.start = c))) := by
    unfold selectNearest
    rw [hc]
    rfl
  obtain ⟨r0, hr0, hr0c⟩ := List.mem_map.mp hcmem
  have hr0sel : r0 ∈ cand.filter (fun r => decide (r.start = c)) :=
    List.mem_filter.mpr ⟨hr0, by simp [hr0c]⟩
  have hlen : ¬ (cand.filter (fun r => decide (r.start = c))).length = 0 := by
    intro h0
    rw [List.length_eq_zero] at h0
    rw [h0] at hr0sel
    cases hr0sel
  refine ⟨cand.filter (fun r => decide (r.start = c)), ?_, ?_, ?_, ?_, ?_⟩
  · simp only [find_goes_dataset, h1, h2, h3, hsel]
    rw [if_neg hlen]
  · exact List.ne_nil_of_mem hr0sel
  · intro r hr
    exact (List.mem_filter.mp hr).1
  · intro r hr r' hr'
    have hrc : r.start = c := by
      have := (List.mem_filter.mp hr).2
      simpa using this
    rw [hrc]
    exact hcmin r'.start (List.mem_map_of_mem _ hr')
  · intro r hr r1 hr1 heqs
    have hr1c : r1.start = c := by
      have := (List.mem_filter.mp hr1).2
      simpa using this
    exact List.mem_filter.mpr ⟨hr, by simp [heqs, hr1c]⟩

/-- C4 witness: the nearest-time selection theorem applied to a concrete
one-candidate run. -/
theorem c4_witness :
    ∃ sel,
      find_goes_dataset "16" "XYZ" "C" BandsArg.nothing
          (some ((toMicros 2024 1 0 0 0 0 : Nat) : Int)) 0 0
          ["a_b_G16_s20240010000000_e20240010000100_c20240010000200.nc"]
          = .ok (some sel) ∧
      sel ≠ [] ∧
      (∀ r ∈ sel,
        r ∈ [(⟨"a_b_G16_s20240010000000_e20240010000100_c20240010000200.nc",
              "b", "G16", ((toMicros 2024 1 0 0 0 0 : Nat) : Int),
              ((toMicros 2024 1 0 0 10 0 : Nat) : Int),
              ((toMicros 2024 1 0 0 20 0 : Nat) : Int),
              some "XYZ", none, none, some "C"⟩ : FileRecord)]) ∧
      (∀ r ∈ sel,
        ∀ r' ∈ [(⟨"a_b_G16_s20240010000000_e20240010000100_c20240010000200.nc",
              "b", "G16", ((toMicros 2024 1 0 0 0 0 : Nat) : Int),
              ((toMicros 2024 1 0 0 10 0 : Nat) : Int),
              ((toMicros 2024 1 0 0 20 0 : Nat) : Int),
              some "XYZ", none, none, some "C"⟩ : FileRecord)],
        (r.start - effectiveTarget 0 0 (some ((toMicros 2024 1 0 0 0 0 : Nat) : Int))).natAbs ≤
          (r'.start - effectiveTarget 0 0 (some ((toMicros 2024 1 0 0 0 0 : Nat) : Int))).natAbs) ∧
      (∀ r ∈ [(⟨"a_b_G16_s20240010000000_e20240010000100_c20240010000200.nc",
              "b", "G16", ((toMicros 2024 1 0 0 0 0 : Nat) : Int),
              ((toMicros 2024 1 0 0 10 0 : Nat) : Int),
              ((toMicros 2024 1 0 0 20 0 : Nat) : Int),
              some "XYZ", none, none, some "C"⟩ : FileRecord)],
        ∀ r0 ∈ sel, r.start = r0.start → r ∈ sel) :=
  c4_nearest_selection "16" "XYZ" "C" BandsArg.nothing
    (some ((toMicros 2024 1 0 0 0 0 : Nat) : Int)) 0 0
    ["a_b_G16_s20240010000000_e20240010000100_c20240010000200.nc"] "16"
    [(⟨"a_b_G16_s20240010000000_e20240010000100_c20240010000200.nc",
        "b", "G16", ((toMicros 2024 1 0 0 0 0 : Nat) : Int),
        ((toMicros 2024 1 0 0 10 0 : Nat) : Int),
        ((toMicros 2024 1 0 0 20 0 : Nat) : Int),
        none, none, none, none⟩ : FileRecord)]
    [(⟨"a_b_G16_s20240010000000_e20240010000100_c20240010000200.nc",
        "b", "G16", ((toMicros 2024 1 0 0 0 0 : Nat) : Int),
        ((toMicros 2024 1 0 0 10 0 : Nat) : Int),
        ((toMicros 2024 1 0 0 20 0 : Nat) : Int),
        some "XYZ", none, none, some "C"⟩ : FileRecord)]
    (by decide) (by decide) (by decide) (by decide)

/-! ## Satellite alias validation and resolution -/

theorem satNumber_mem {s num : String} (h : satNumber s = some num) :
    num = "16" ∨ num = "17" ∨ num = "18" := by
  unfold satNumber at h
  split_ifs at h <;> cases h
  · exact Or.inl rfl
  · exact Or.inr (Or.inl rfl)
  · exact Or.inr (Or.inr rfl)

/-- C5: any satellite argument whose uppercased string form is not among
the sixteen recognized alias spellings makes `find_goes_dataset` raise the
validation `ValueError` — for every possible listing, i.e. before any
listing is attempted. -/
theorem c5_unrecognized_alias_fails (satellite product domain : String)
    (bands : BandsArg) (datetimeArg : Option Int) (importNow callNow : Int)
    (files : List String)
    (h : satellite.toList.map Char.toUpper ∉ recognizedAliases) :
    find_goes_dataset satellite product domain bands datetimeArg
        importNow callNow files = .error (satErrMsg satellite) := by
  have hn : satNumber satellite = none := by
    unfold satNumber
    rw [if_neg, if_neg, if_neg]
    all_goals intro hc
    all_goals apply h
    all_goals simp only [upperChars, recognizedAliases, List.mem_cons, List.not_mem_nil, or_false]
    all_goals tauto
  unfold find_goes_dataset
  rw [hn]

/-- C5 witness: the alias `GOES19` is rejected whatever else is passed. -/
theorem c5_witness :
    ("GOES19".toList.map Char.toUpper ∉ recognizedAliases) ∧
    find_goes_dataset "GOES19" "ABI-L2-MCMIP" "C" BandsArg.nothing
        (some 0) 0 0 ["x_y_G16_s20240010000000_e20240010000100_c20240010000200.nc"]
      = .error (satErrMsg "GOES19") :=
  ⟨by decide,
   c5_unrecognized_alias_fails "GOES19" "ABI-L2-MCMIP" "C" BandsArg.nothing
     (some 0) 0 0 ["x_y_G16_s20240010000000_e20240010000100_c20240010000200.nc"]
     (by decide)⟩

/-- C6: resolving a satellite alias is a pure function of the alias — two
resolutions of the same alias agree — and any successful resolution yields
one of the canonical ids `16`, `17`, `18` with the bucket name
`noaa-goes` + id. -/
theorem c6_resolution_deterministic (s : String)
    (r1 r2 : Option (String × String))
    (h1 : satBucket s = r1) (h2 : satBucket s = r2) :
    r1 = r2 ∧ ∀ n b, r1 = some (n, b) →
      b = "noaa-goes" ++ n ∧ (n = "16" ∨ n = "17" ∨ n = "18") := by
  constructor
  · exact h1.symm.trans h2
  · intro n b hr
    have h3 : satBucket s = some (n, b) := h1.trans hr
    unfold satBucket at h3
    cases hsn : satNumber s with
    | none => rw [hsn] at h3; cases h3
    | some num =>
      rw [hsn] at h3
      injection h3 with h4
      injection h4 with h5 h6
      subst h5
      subst h6
      exact ⟨rfl, satNumber_mem hsn⟩

/-- C6 witness: the determinism-and-shape theorem applied to `G16`. -/
theorem c6_witness :
    (some (("16" : String), ("noaa-goes16" : String)) =
      some (("16" : String), ("noaa-goes16" : String))) ∧
    ∀ n b, (some (("16" : String), ("noaa-goes16" : String)) :
        Option (String × String)) = some (n, b) →
      b = "noaa-goes" ++ n ∧ (n = "16" ∨ n = "17" ∨ n = "18") :=
  c6_resolution_deterministic "G16" _ _ (by decide) (by decide)

/-- C7: the `datetime` default is the clock captured at module import, not
the clock of the call — Python evaluates `pd.Timestamp.now()` once at
definition time — so two calls at different wall-clock times with the
argument omitted use the identical target and produce identical results.
This refutes the claimed call-time default and matches the docstring bug. -/
theorem c7_default_target_fixed_at_import (satellite product domain : String)
    (bands : BandsArg) (importNow callNow1 callNow2 : Int)
    (files : List String) :
    effectiveTarget importNow callNow1 none = defaultTargetTime importNow ∧
    find_goes_dataset satellite product domain bands none importNow callNow1 files =
      find_goes_dataset satellite product domain bands none importNow callNow2 files :=
  ⟨rfl, rfl⟩

/-- C2: when the filtering steps leave zero rows (here: the only listed
object lies outside the padded window), the nearest-time lookup runs on an
empty index and raises `IndexError` — the function does not reach the
`print`-and-`return None` branch of lines 175-178, refuting the claimed
null result. -/
theorem c2_empty_rows_raise_indexerror :
    find_goes_dataset "16" "ABI-L2-MCMIP" "C" BandsArg.nothing
        (some ((toMicros 2024 200 0 0 0 0 : Nat) : Int)) 0 0
        ["noaa-goes16/OR_ABI-L2-MCMIPC-M6_G16_s20240010000000_e20240010000100_c20240010000200.nc"]
      = .error indexErrMsg := by
  decide

/-- C3 witness: the window-filter characterization applied to a concrete
run whose single record sits inside the requested window. -/
theorem c3_witness :
    (⟨"a_b_G16_s20240010000000_e20240010000100_c20240010000200.nc", "b", "G16",
        ((toMicros 2024 1 0 0 0 0 : Nat) : Int), ((toMicros 2024 1 0 0 10 0 : Nat) : Int),
        ((toMicros 2024 1 0 0 20 0 : Nat) : Int), none, none, none, none⟩ : FileRecord) ∈
      [(⟨"a_b_G16_s20240010000000_e20240010000100_c20240010000200.nc", "b", "G16",
        ((toMicros 2024 1 0 0 0 0 : Nat) : Int), ((toMicros 2024 1 0 0 10 0 : Nat) : Int),
        ((toMicros 2024 1 0 0 20 0 : Nat) : Int), none, none, none, none⟩ : FileRecord)] ↔
    ((⟨"a_b_G16_s20240010000000_e20240010000100_c20240010000200.nc", "b", "G16",
        ((toMicros 2024 1 0 0 0 0 : Nat) : Int), ((toMicros 2024 1 0 0 10 0 : Nat) : Int),
        ((toMicros 2024 1 0 0 20 0 : Nat) : Int), none, none, none, none⟩ : FileRecord) ∈
      [(⟨"a_b_G16_s20240010000000_e20240010000100_c20240010000200.nc", "b", "G16",
        ((toMicros 2024 1 0 0 0 0 : Nat) : Int), ((toMicros 2024 1 0 0 10 0 : Nat) : Int),
        ((toMicros 2024 1 0 0 20 0 : Nat) : Int), none, none, none, none⟩ : FileRecord)] ∧
      (0 : Int) ≤ (⟨"a_b_G16_s20240010000000_e20240010000100_c20240010000200.nc", "b", "G16",
        ((toMicros 2024 1 0 0 0 0 : Nat) : Int), ((toMicros 2024 1 0 0 10 0 : Nat) : Int),
        ((toMicros 2024 1 0 0 20 0 : Nat) : Int), none, none, none, none⟩ : FileRecord).start ∧
      (⟨"a_b_G16_s20240010000000_e20240010000100_c20240010000200.nc", "b", "G16",
        ((toMicros 2024 1 0 0 0 0 : Nat) : Int), ((toMicros 2024 1 0 0 10 0 : Nat) : Int),
        ((toMicros 2024 1 0 0 20 0 : Nat) : Int), none, none, none, none⟩ : FileRecord).end_ ≤
        ((toMicros 2100 1 0 0 0 0 : Nat) : Int)) :=
  c3_window_filter_iff "XYZ" 0 ((toMicros 2100 1 0 0 0 0 : Nat) : Int)
    BandsArg.nothing
    ["a_b_G16_s20240010000000_e20240010000100_c20240010000200.nc"]
    [(⟨"a_b_G16_s20240010000000_e20240010000100_c20240010000200.nc", "b", "G16",
        ((toMicros 2024 1 0 0 0 0 : Nat) : Int), ((toMicros 2024 1 0 0 10 0 : Nat) : Int),
        ((toMicros 2024 1 0 0 20 0 : Nat) : Int), none, none, none, none⟩ : FileRecord)]
    [(⟨"a_b_G16_s20240010000000_e20240010000100_c20240010000200.nc", "b", "G16",
        ((toMicros 2024 1 0 0 0 0 : Nat) : Int), ((toMicros 2024 1 0 0 10 0 : Nat) : Int),
        ((toMicros 2024 1 0 0 20 0 : Nat) : Int), none, none, none, none⟩ : FileRecord)]
    (by decide) (by decide) _

/-- C9 witness: the band-filter characterization applied to a concrete
two-row table with channels 2 and 5 and the request `[2]`. -/
theorem c9_witness :
    (⟨"f1", "ABI-L1b-RadC-M6C02", "G16", "s1", "e1", "c1",
        some "ABI-L1b-RadC", some 6, some 2⟩ : PreRecord) ∈
      [(⟨"f1", "ABI-L1b-RadC-M6C02", "G16", "s1", "e1", "c1",
          some "ABI-L1b-RadC", some 6, some 2⟩ : PreRecord)] ↔
    ((⟨"f1", "ABI-L1b-RadC-M6C02", "G16", "s1", "e1", "c1",
        some "ABI-L1b-RadC", some 6, some 2⟩ : PreRecord) ∈
      [(⟨"f1", "ABI-L1b-RadC-M6C02", "G16", "s1", "e1", "c1",
          some "ABI-L1b-RadC", some 6, some 2⟩ : PreRecord),
       (⟨"f2", "ABI-L1b-RadC-M6C05", "G16", "s2", "e2", "c2",
          some "ABI-L1b-RadC", some 6, some 5⟩ : PreRecord)] ∧
      ∃ b, (⟨"f1", "ABI-L1b-RadC-M6C02", "G16", "s1", "e1", "c1",
          some "ABI-L1b-RadC", some 6, some 2⟩ : PreRecord).band = some b ∧
        ([2] : List Nat).contains b = true) :=
  c9_band_filter_iff "ABI-L1b-RadC" [2]
    [(⟨"f1", "ABI-L1b-RadC-M6C02", "G16", "s1", "e1", "c1",
        none, none, none⟩ : PreRecord),
     (⟨"f2", "ABI-L1b-RadC-M6C05", "G16", "s2", "e2", "c2",
        none, none, none⟩ : PreRecord)]
    [(⟨"f1", "ABI-L1b-RadC-M6C02", "G16", "s1", "e1", "c1",
        some "ABI-L1b-RadC", some 6, some 2⟩ : PreRecord),
     (⟨"f2", "ABI-L1b-RadC-M6C05", "G16", "s2", "e2", "c2",
        some "ABI-L1b-RadC", some 6, some 5⟩ : PreRecord)]
    [(⟨"f1", "ABI-L1b-RadC-M6C02", "G16", "s1", "e1", "c1",
        some "ABI-L1b-RadC", some 6, some 2⟩ : PreRecord)]
    (by decide) (by decide) (by decide) _

end Met4450
